import Mathlib

/-!
Shallow embedding of the `nadi` Django adapter
(`src/packages/adapter-django/src/nadi_django/__init__.py` and
`src/packages/adapter-django/src/nadi_django/middleware.py`).

JSON values decoded by Python's `json` module are modelled by `JValue`;
Python dictionaries appear as insertion-ordered association lists.
I/O effects (reading the manifest file, the MD5 digest, the HTTP call to
the SSR endpoint) are modelled as explicit environment parameters: the
outcome the library call would produce is passed in, and an uncaught
Python exception is an `Except.error`.
-/

namespace Nadi

/-- A JSON value as decoded by Python's `json.load` / `json.loads`.
Objects keep their key/value pairs in insertion order, matching Python
dictionaries. -/
inductive JValue where
  | null : JValue
  | bool : Bool → JValue
  | num : Int → JValue
  | str : String → JValue
  | arr : List JValue → JValue
  | obj : List (String × JValue) → JValue

/-- Python truthiness of a decoded JSON value: `None`, `False`, `0`, `""`,
`[]` and the empty dict are falsy, everything else is truthy. -/
def pyTruthy : JValue → Bool
  | .null => false
  | .bool b => b
  | .num n => decide (n ≠ 0)
  | .str s => decide (s ≠ "")
  | .arr xs => !xs.isEmpty
  | .obj kvs => !kvs.isEmpty

/-- Python `d.get(k, default)` on a dict modelled as an association list. -/
def dictGet (kvs : List (String × JValue)) (k : String) (d : JValue) : JValue :=
  match kvs.lookup k with
  | some v => v
  | none => d

/-- `x or {}` as applied to the `props`/`options` parameters of
`NadiRenderer.render`: an absent (`None`) or falsy argument becomes the
empty dict. -/
def orEmptyDict : Option JValue → JValue
  | none => .obj []
  | some v => if pyTruthy v then v else .obj []

/-- Python `str()` as used by f-string interpolation on decoded JSON
values (containers are approximated by their JSON serialisation; every
claim below only ever interpolates string values). -/
def pyStr : JValue → String
  | .str s => s
  | .num n => toString n
  | .bool true => "True"
  | .bool false => "False"
  | .null => "None"
  | .arr _ => "<list>"
  | .obj _ => "<dict>"

/-- `NadiRenderer._load_manifest`: `open` + `json.load` inside a bare
`try/except`.  The file system and JSON parser are modelled by the
argument: `none` means `open` or `json.load` raised (missing file or
content that is not valid JSON), `some v` means the file parsed to the
JSON value `v` — note `json.load` succeeds on any valid JSON document,
whether or not it is an object. -/
def load_manifest (parsed : Option JValue) : JValue :=
  match parsed with
  | some v => v
  | none => .obj []

/-- Escaping applied by `json.dumps` to the characters that occur in the
claims below (backslash and double quote; other control-character
escapes are irrelevant here). -/
def jsonEscape (s : String) : String :=
  s.foldl (fun acc c =>
    if c = '\\' then acc ++ "\\\\"
    else if c = '"' then acc ++ "\\" ++ "\""
    else acc.push c) ""

mutual

/-- `json.dumps` on a decoded JSON value (default separators). -/
def jdump : JValue → String
  | .null => "null"
  | .bool true => "true"
  | .bool false => "false"
  | .num n => toString n
  | .str s => "\"" ++ jsonEscape s ++ "\""
  | .arr xs => "[" ++ jdumpArr xs ++ "]"
  | .obj kvs => "\x7b" ++ jdumpObj kvs ++ "\x7d"

/-- Comma-separated serialisation of a JSON array's elements. -/
def jdumpArr : List JValue → String
  | [] => ""
  | [x] => jdump x
  | x :: y :: xs => jdump x ++ ", " ++ jdumpArr (y :: xs)

/-- Comma-separated serialisation of a JSON object's key/value pairs. -/
def jdumpObj : List (String × JValue) → String
  | [] => ""
  | [(k, v)] => "\"" ++ jsonEscape k ++ "\": " ++ jdump v
  | (k, v) :: p :: kvs =>
      "\"" ++ jsonEscape k ++ "\": " ++ jdump v ++ ", " ++ jdumpObj (p :: kvs)

end

/-- Python `for x in v` on a decoded JSON value: lists yield their
elements, strings their characters, dicts their keys; numbers, booleans
and `None` raise `TypeError`. -/
def pyIter : JValue → Except String (List JValue)
  | .arr xs => .ok xs
  | .str s => .ok (s.toList.map fun c => .str (String.singleton c))
  | .obj kvs => .ok (kvs.map fun kv => .str kv.fst)
  | _ => .error "TypeError: object is not iterable"

/-- The script tag emitted by `_get_scripts` for one entry:
`f-string` interpolation of `data["file"]` under the fixed base path. -/
def scriptTag (fileVal : JValue) : String :=
  "<script type=\"module\" src=\"/static/build/" ++ pyStr fileVal ++ "\"></script>"

/-- The fallback development script tag returned when the manifest is
falsy. -/
def fallbackScript : String :=
  "<script type=\"module\" src=\"/static/src/main.ts\"></script>"

/-- The loop body of `_get_scripts`: for each `(file, data)` pair, if
`data.get('isEntry')` is truthy append the script tag for
`data["file"]`.  `data.get` on a non-dict raises `AttributeError`;
`data["file"]` on a dict without the key raises `KeyError`. -/
def get_scripts_loop : List (String × JValue) → Except String (List String)
  | [] => .ok []
  | (_, data) :: rest =>
    match data with
    | .obj dkvs =>
      if pyTruthy (dictGet dkvs "isEntry" .null) then
        match dkvs.lookup "file" with
        | some fv => do
            let tail ← get_scripts_loop rest
            return scriptTag fv :: tail
        | none => .error "KeyError: file"
      else get_scripts_loop rest
    | _ => .error "AttributeError: get"

/-- `NadiRenderer._get_scripts`.  A falsy manifest (in particular the
empty dict) yields the fallback tag; otherwise `.items()` is iterated
(raising `AttributeError` on a non-dict) and the collected tags are
joined with newlines.  An `Except.error` models an uncaught Python
exception. -/
def get_scripts (manifest : JValue) : Except String String :=
  if pyTruthy manifest then
    match manifest with
    | .obj kvs => (get_scripts_loop kvs).map (String.intercalate "\n")
    | _ => .error "AttributeError: items"
  else
    .ok fallbackScript

/-- The stylesheet tag emitted by `_get_styles` for one css element. -/
def linkTag (cssVal : JValue) : String :=
  "<link rel=\"stylesheet\" href=\"/static/build/" ++ pyStr cssVal ++ "\">"

/-- The loop body of `_get_styles`: for each `(file, data)` pair with a
`css` key (`'css' in data`), iterate `data['css']` and append one link
tag per element.  (Python's `in` on a non-dict record is a
substring/membership test; that corner is collapsed to the error case
here and is outside every claim's precondition.) -/
def get_styles_loop : List (String × JValue) → Except String (List String)
  | [] => .ok []
  | (_, data) :: rest =>
    match data with
    | .obj dkvs =>
      match dkvs.lookup "css" with
      | some cssv => do
          let items ← pyIter cssv
          let tail ← get_styles_loop rest
          return items.map linkTag ++ tail
      | none => get_styles_loop rest
    | _ => .error "TypeError: argument of type is not iterable"

/-- `NadiRenderer._get_styles`: iterate `self.manifest.items()` with no
emptiness check, collect link tags, join with newlines. -/
def get_styles (manifest : JValue) : Except String String :=
  match manifest with
  | .obj kvs => (get_styles_loop kvs).map (String.intercalate "\n")
  | _ => .error "AttributeError: items"

/-- The state a `NadiRenderer` instance holds after `__init__`:
configuration read once from settings, and the manifest value returned
by `_load_manifest` (any JSON value, per `load_manifest`). -/
structure Renderer where
  ssr_url : String
  ssr_enabled : Bool
  manifest : JValue

/-- The I/O environment of one `render`/`_get_version` call:
the manifest file's bytes at call time (`none` = unreadable), the MD5
hex-digest function of `hashlib` (abstract), and the outcome of the
HTTP POST to the SSR endpoint followed by `response.json()`
(`none` = any exception: network error, timeout, non-JSON body). -/
structure Env where
  manifestBytes : Option (List Nat)
  md5hex : List Nat → String
  ssrResponse : Option JValue

/-- The inbound Django request as consumed by the adapter: its headers
and its path. -/
structure Request where
  headers : List (String × String)
  path : String

/-- Django `request.headers.get(k)`. -/
def headersGet (req : Request) (k : String) : Option String :=
  req.headers.lookup k

/-- `NadiRenderer._get_version`: read the manifest file's bytes and
return their MD5 hex digest; on any exception return `"dev"`.  The
renderer state is the method's `self`; the digest depends only on the
environment. -/
def get_version (_rd : Renderer) (env : Env) : String :=
  match env.manifestBytes with
  | some bs => env.md5hex bs
  | none => "dev"

/-- The two shapes of value `render` hands back: a `JsonResponse`
payload, or the context dict passed (with the template name) to
Django's template renderer. -/
inductive RenderOutput where
  | jsonPayload (component : String) (props : JValue) (url : String) (version : String)
  | htmlContext (component : String) (propsJson : String) (scripts styles : String)
      (html head : JValue) (template : JValue)

/-- `true` exactly on the `JsonPayload` variant. -/
def RenderOutput.isJson : RenderOutput → Bool
  | .jsonPayload _ _ _ _ => true
  | .htmlContext _ _ _ _ _ _ _ => false

/-- The `html` slot of an `HtmlContext` (`none` on the JSON variant). -/
def RenderOutput.ssrHtml : RenderOutput → Option JValue
  | .htmlContext _ _ _ _ h _ _ => some h
  | .jsonPayload _ _ _ _ => none

/-- The `head` slot of an `HtmlContext` (`none` on the JSON variant). -/
def RenderOutput.ssrHead : RenderOutput → Option JValue
  | .htmlContext _ _ _ _ _ h _ => some h
  | .jsonPayload _ _ _ _ => none

/-- Outcome of one `render` call: the produced output together with the
number of HTTP calls made to the SSR endpoint during the call. -/
structure RenderResult where
  output : RenderOutput
  ssrCalls : Nat

/-- The SSR block of `render`: gated on
`self.ssr_enabled and options.get('ssr', True)`, the POST to the SSR
endpoint runs inside `try/except: pass`.  A decoded dict body sets
`html`/`head` via `data.get(k, '')`; any exception (`resp = none`) or a
non-dict body (whose `.get` raises `AttributeError`, caught by the bare
`except`) leaves both at `''`.  Returns `(html, head, call count)`. -/
def ssrOutcome (enabled : Bool) (options : List (String × JValue))
    (resp : Option JValue) : JValue × JValue × Nat :=
  if enabled && pyTruthy (dictGet options "ssr" (.bool true)) then
    match resp with
    | some (.obj dkvs) =>
        (dictGet dkvs "html" (.str ""), dictGet dkvs "head" (.str ""), 1)
    | _ => (.str "", .str "", 1)
  else (.str "", .str "", 0)

/-- `NadiRenderer.render`.  `props`/`options` are the optional call
arguments (`None` modelled as `none`; `options` is a mapping per the
call contract).  The XHR check compares
`request.headers.get('X-Requested-With')` with `'XMLHttpRequest'` and
returns the `JsonResponse` payload immediately.  Otherwise the context
dict is built — computing scripts and styles, whose exceptions
propagate — then the SSR block (`ssrOutcome`) fills `html`/`head`, and
the context goes to the template renderer with
`options.get('template', 'nadi/app.html')`.  An `Except.error` models
an uncaught exception reaching `render`'s caller. -/
def render (rd : Renderer) (env : Env) (req : Request) (component : String)
    (props : Option JValue) (options : Option (List (String × JValue))) :
    Except String RenderResult :=
  let props := orEmptyDict props
  let options := options.getD []
  if headersGet req "X-Requested-With" = some "XMLHttpRequest" then
    .ok ⟨.jsonPayload component props req.path (get_version rd env), 0⟩
  else do
    let scripts ← get_scripts rd.manifest
    let styles ← get_styles rd.manifest
    let (html, head, calls) := ssrOutcome rd.ssr_enabled options env.ssrResponse
    let template := dictGet options "template" (.str "nadi/app.html")
    return ⟨.htmlContext component (jdump props) scripts styles html head template, calls⟩

/-- Python truthiness of `headers.get(k)`: present with a non-empty
value. -/
def optStrTruthy : Option String → Bool
  | some s => decide (s ≠ "")
  | none => false

/-- `response[k] = v` on a Django response modelled as a header list:
replaces any existing value for `k`. -/
def setHeader (hs : List (String × String)) (k v : String) : List (String × String) :=
  (hs.filter fun kv => kv.fst ≠ k) ++ [(k, v)]

/-- `NadiMiddleware.__call__`: obtain the wrapped view's response
(modelled by its header list `inner`), set the fixed version header,
and, when `request.headers.get('X-Nadi')` is truthy, set the CSRF token
header to `get_token(request)` (modelled by `csrfToken`).  Returns the
response's final header list. -/
def middleware_call (inner : List (String × String)) (csrfToken : String)
    (req : Request) : List (String × String) :=
  let response := setHeader inner "X-Nadi-Version" "0.2.0"
  if optStrTruthy (headersGet req "X-Nadi") then
    setHeader response "X-CSRF-Token" csrfToken
  else
    response

/-- A metadata record as documented by the manifest schema:
a JSON object with a string `file`, an optional boolean `isEntry` and
an optional list-of-strings `css`. -/
def conformsRecord : JValue → Bool
  | .obj dkvs =>
    (match dkvs.lookup "file" with
      | some (.str _) => true
      | _ => false) &&
    (match dkvs.lookup "isEntry" with
      | some (.bool _) => true
      | none => true
      | _ => false) &&
    (match dkvs.lookup "css" with
      | some (.arr items) =>
          items.all fun v => match v with | .str _ => true | _ => false
      | none => true
      | _ => false)
  | _ => false

/-- A loaded manifest that conforms to the documented schema: a mapping
from strings to conforming metadata records. -/
def conformsManifest : JValue → Bool
  | .obj kvs => kvs.all fun kv => conformsRecord kv.snd
  | _ => false

/-- One line of the `scripts` output as the specification describes it:
an entry whose `isEntry` flag is true yields one script reference
pointing at its `file` value under the fixed static-asset base path. -/
def specScriptsLine (kv : String × JValue) : Option String :=
  match kv.snd with
  | .obj dkvs =>
    match dkvs.lookup "isEntry", dkvs.lookup "file" with
    | some (.bool true), some (.str f) =>
        some ("<script type=\"module\" src=\"/static/build/" ++ f ++ "\"></script>")
    | _, _ => none
  | _ => none

/-- The `scripts` contract as the specification states it: on an empty
manifest exactly the single fallback reference; otherwise one script
reference per `isEntry` entry, in the mapping's iteration order, joined
with newline separators. -/
def scripts_spec (kvs : List (String × JValue)) : String :=
  if kvs.isEmpty then fallbackScript
  else String.intercalate "\n" (kvs.filterMap specScriptsLine)

/- ### Helper lemmas -/

/-- A conforming record is an object whose `file` value is a string. -/
theorem conformsRecord_shape (d : JValue) (h : conformsRecord d = true) :
    ∃ dkvs f, d = JValue.obj dkvs ∧ dkvs.lookup "file" = some (.str f) := by
  cases d with
  | obj dkvs =>
    refine ⟨dkvs, ?_⟩
    simp only [conformsRecord, Bool.and_eq_true] at h
    obtain ⟨⟨hf, _⟩, _⟩ := h
    cases hfile : dkvs.lookup "file" with
    | none => rw [hfile] at hf; simp at hf
    | some v =>
      cases v with
      | str f => exact ⟨f, rfl, rfl⟩
      | null => rw [hfile] at hf; simp at hf
      | bool b => rw [hfile] at hf; simp at hf
      | num n => rw [hfile] at hf; simp at hf
      | arr xs => rw [hfile] at hf; simp at hf
      | obj kvs => rw [hfile] at hf; simp at hf
  | null => simp [conformsRecord] at h
  | bool b => simp [conformsRecord] at h
  | num n => simp [conformsRecord] at h
  | str s => simp [conformsRecord] at h
  | arr xs => simp [conformsRecord] at h

/-- In a conforming record the `isEntry` slot is absent or a boolean,
so the code's truthiness test agrees with the spec's `isEntry = true`. -/
theorem conformsRecord_isEntry (dkvs : List (String × JValue))
    (h : conformsRecord (JValue.obj dkvs) = true) :
    pyTruthy (dictGet dkvs "isEntry" .null) = true
      ↔ dkvs.lookup "isEntry" = some (JValue.bool true) := by
  simp only [conformsRecord, Bool.and_eq_true] at h
  obtain ⟨⟨_, he⟩, _⟩ := h
  cases hent : dkvs.lookup "isEntry" with
  | none => simp [dictGet, hent, pyTruthy]
  | some v =>
    rw [hent] at he
    cases v with
    | bool b => cases b <;> simp [dictGet, hent, pyTruthy]
    | null => simp at he
    | num n => simp at he
    | str s => simp at he
    | arr xs => simp at he
    | obj kvs => simp at he

/-- Under the documented schema, the `_get_scripts` loop succeeds and
produces exactly the lines the specification describes. -/
theorem get_scripts_loop_conform (kvs : List (String × JValue))
    (h : ∀ kv ∈ kvs, conformsRecord kv.snd = true) :
    get_scripts_loop kvs = .ok (kvs.filterMap specScriptsLine) := by
  induction kvs with
  | nil => rfl
  | cons kv rest ih =>
    have hkv : conformsRecord kv.snd = true := h kv (by simp)
    have hrest := ih fun x hx => h x (by simp [hx])
    obtain ⟨dkvs, f, hobj, hfile⟩ := conformsRecord_shape kv.snd hkv
    obtain ⟨k, d⟩ := kv
    simp only at hobj
    subst hobj
    have hent := conformsRecord_isEntry dkvs hkv
    by_cases hb : dkvs.lookup "isEntry" = some (JValue.bool true)
    · have htr : pyTruthy (dictGet dkvs "isEntry" .null) = true := hent.mpr hb
      simp [get_scripts_loop, htr, hfile, hrest, List.filterMap_cons,
        specScriptsLine, hb, scriptTag, pyStr]
    · have htr : pyTruthy (dictGet dkvs "isEntry" .null) = false := by
        cases hx : pyTruthy (dictGet dkvs "isEntry" .null) with
        | false => rfl
        | true => exact absurd (hent.mp hx) hb
      have hline : specScriptsLine (k, JValue.obj dkvs) = none := by
        simp only [specScriptsLine]
        rw [hfile]
        cases hx : dkvs.lookup "isEntry" with
        | none => simp
        | some v =>
          cases v with
          | bool b =>
            cases b
            · simp
            · exact absurd hx hb
          | null => simp
          | num n => simp
          | str s => simp
          | arr xs => simp
          | obj o => simp
      simp [get_scripts_loop, htr, hrest, List.filterMap_cons, hline]

/-- A conforming manifest is an object of conforming records. -/
theorem conformsManifest_shape (m : JValue) (h : conformsManifest m = true) :
    ∃ kvs, m = JValue.obj kvs ∧ ∀ kv ∈ kvs, conformsRecord kv.snd = true := by
  cases m with
  | obj kvs =>
    refine ⟨kvs, rfl, ?_⟩
    simpa [conformsManifest, List.all_eq_true] using h
  | null => simp [conformsManifest] at h
  | bool b => simp [conformsManifest] at h
  | num n => simp [conformsManifest] at h
  | str s => simp [conformsManifest] at h
  | arr xs => simp [conformsManifest] at h

/-- Under the documented schema `_get_scripts` raises nothing. -/
theorem get_scripts_conform_ok (m : JValue) (h : conformsManifest m = true) :
    ∃ s, get_scripts m = .ok s := by
  obtain ⟨kvs, rfl, hall⟩ := conformsManifest_shape m h
  rw [get_scripts]
  by_cases he : pyTruthy (JValue.obj kvs) = true
  · rw [he]
    exact ⟨_, by rw [get_scripts_loop_conform kvs hall]; rfl⟩
  · rw [Bool.not_eq_true] at he
    rw [he]
    exact ⟨fallbackScript, rfl⟩

/-- Under the documented schema the `_get_styles` loop raises nothing. -/
theorem get_styles_loop_conform (kvs : List (String × JValue))
    (h : ∀ kv ∈ kvs, conformsRecord kv.snd = true) :
    ∃ l, get_styles_loop kvs = .ok l := by
  induction kvs with
  | nil => exact ⟨[], rfl⟩
  | cons kv rest ih =>
    have hkv : conformsRecord kv.snd = true := h kv (by simp)
    obtain ⟨l, hl⟩ := ih fun x hx => h x (by simp [hx])
    obtain ⟨dkvs, f, hobj, _⟩ := conformsRecord_shape kv.snd hkv
    obtain ⟨k, d⟩ := kv
    simp only at hobj
    subst hobj
    have hcss : (match dkvs.lookup "css" with
        | some (JValue.arr items) =>
            items.all fun v => match v with | JValue.str _ => true | _ => false
        | none => true
        | _ => false) = true := by
      simp only [conformsRecord, Bool.and_eq_true] at hkv
      exact hkv.2
    cases hc : dkvs.lookup "css" with
    | none => exact ⟨l, by simp [get_styles_loop, hc, hl]⟩
    | some v =>
      rw [hc] at hcss
      cases v with
      | arr items =>
        refine ⟨items.map linkTag ++ l, ?_⟩
        simp only [get_styles_loop, hc, pyIter, hl]
        rfl
      | null => simp at hcss
      | bool b => simp at hcss
      | num n => simp at hcss
      | str s => simp at hcss
      | obj o => simp at hcss

/-- Under the documented schema `_get_styles` raises nothing. -/
theorem get_styles_conform_ok (m : JValue) (h : conformsManifest m = true) :
    ∃ s, get_styles m = .ok s := by
  obtain ⟨kvs, rfl, hall⟩ := conformsManifest_shape m h
  obtain ⟨l, hl⟩ := get_styles_loop_conform kvs hall
  exact ⟨String.intercalate "\n" l, by rw [get_styles, hl]; rfl⟩

/-- Evaluation of `render` on an XHR request: the early-return branch. -/
theorem render_xhr_eq (rd : Renderer) (env : Env) (req : Request)
    (c : String) (p : Option JValue) (o : Option (List (String × JValue)))
    (hx : headersGet req "X-Requested-With" = some "XMLHttpRequest") :
    render rd env req c p o
      = .ok ⟨.jsonPayload c (orEmptyDict p) req.path (get_version rd env), 0⟩ := by
  rw [render]
  simp [hx]

/-- Evaluation of `render` on a non-XHR request whose scripts and
styles computations succeed. -/
theorem render_nonxhr_eq (rd : Renderer) (env : Env) (req : Request)
    (c : String) (p : Option JValue) (o : Option (List (String × JValue)))
    (hx : ¬ headersGet req "X-Requested-With" = some "XMLHttpRequest")
    (s t : String) (hs : get_scripts rd.manifest = .ok s)
    (ht : get_styles rd.manifest = .ok t) :
    render rd env req c p o
      = .ok ⟨.htmlContext c (jdump (orEmptyDict p)) s t
          (ssrOutcome rd.ssr_enabled (o.getD []) env.ssrResponse).1
          (ssrOutcome rd.ssr_enabled (o.getD []) env.ssrResponse).2.1
          (dictGet (o.getD []) "template" (.str "nadi/app.html")),
          (ssrOutcome rd.ssr_enabled (o.getD []) env.ssrResponse).2.2⟩ := by
  rw [render]
  rw [if_neg hx]
  simp only [hs, ht]
  rfl

/-- The SSR block's outcome when the gate is open and the endpoint
returned a JSON object. -/
theorem ssrOutcome_obj (enabled : Bool) (opts : List (String × JValue))
    (dkvs : List (String × JValue))
    (hg : (enabled && pyTruthy (dictGet opts "ssr" (.bool true))) = true) :
    ssrOutcome enabled opts (some (.obj dkvs))
      = (dictGet dkvs "html" (.str ""), dictGet dkvs "head" (.str ""), 1) := by
  simp [ssrOutcome, hg]

/-- The SSR block leaves `html`/`head` empty whenever the endpoint did
not produce a JSON-object body, whatever the gate. -/
theorem ssrOutcome_failure (enabled : Bool) (opts : List (String × JValue))
    (resp : Option JValue)
    (hfail : ∀ dkvs, resp ≠ some (JValue.obj dkvs)) :
    (ssrOutcome enabled opts resp).1 = .str ""
      ∧ (ssrOutcome enabled opts resp).2.1 = .str "" := by
  cases hg : (enabled && pyTruthy (dictGet opts "ssr" (.bool true))) with
  | false => simp [ssrOutcome, hg]
  | true =>
    cases resp with
    | none => simp [ssrOutcome, hg]
    | some v =>
      cases v with
      | obj dkvs => exact absurd rfl (hfail dkvs)
      | null => simp [ssrOutcome, hg]
      | bool b => simp [ssrOutcome, hg]
      | num n => simp [ssrOutcome, hg]
      | str s => simp [ssrOutcome, hg]
      | arr xs => simp [ssrOutcome, hg]

/-- The SSR block when `options` carries `ssr = False`: gate closed, no
call, empty `html`/`head`. -/
theorem ssrOutcome_optout (enabled : Bool) (opts : List (String × JValue))
    (resp : Option JValue) (h : opts.lookup "ssr" = some (JValue.bool false)) :
    ssrOutcome enabled opts resp = (.str "", .str "", 0) := by
  simp [ssrOutcome, dictGet, h, pyTruthy]

/-- Looking up a key in a list from which it was just filtered out
yields nothing. -/
theorem lookup_filter_self (hs : List (String × String)) (k : String) :
    (hs.filter fun kv => kv.fst ≠ k).lookup k = none := by
  induction hs with
  | nil => rfl
  | cons kv t ih =>
    obtain ⟨a, b⟩ := kv
    by_cases ha : a = k
    · subst ha
      rw [List.filter_cons]
      have hc : ¬ ((decide ((a, b).1 ≠ a)) = true) := by simp
      rw [if_neg hc]
      exact ih
    · have hk : (k == a) = false := by
        simp only [beq_eq_false_iff_ne, ne_eq]
        exact fun h => ha h.symm
      rw [List.filter_cons]
      have hc : (decide ((a, b).1 ≠ k)) = true := by simp [ha]
      rw [if_pos hc]
      simp only [List.lookup, hk]
      exact ih

/-- Filtering out a different key does not change a lookup. -/
theorem lookup_filter_other (hs : List (String × String)) (k k' : String)
    (h : ¬ k = k') :
    (hs.filter fun kv => kv.fst ≠ k').lookup k = hs.lookup k := by
  induction hs with
  | nil => rfl
  | cons kv t ih =>
    obtain ⟨a, b⟩ := kv
    by_cases ha : a = k'
    · subst ha
      have hk : (k == a) = false := by
        simp only [beq_eq_false_iff_ne, ne_eq]
        exact h
      rw [List.filter_cons]
      have hc : ¬ ((decide ((a, b).1 ≠ a)) = true) := by simp
      rw [if_neg hc, ih]
      simp only [List.lookup, hk]
    · rw [List.filter_cons]
      have hc : (decide ((a, b).1 ≠ k')) = true := by simp [ha]
      rw [if_pos hc]
      cases hk : (k == a) with
      | true => simp [List.lookup, hk]
      | false =>
        simp only [List.lookup, hk]
        exact ih

/-- Lookup distributes over append, preferring the left list. -/
theorem lookup_append_cases (l1 l2 : List (String × String)) (k : String) :
    (l1 ++ l2).lookup k
      = match l1.lookup k with
        | some v => some v
        | none => l2.lookup k := by
  induction l1 with
  | nil => rfl
  | cons kv t ih =>
    obtain ⟨a, b⟩ := kv
    cases hk : (k == a) with
    | true => simp [List.lookup, hk]
    | false => simp [List.lookup, hk, ih]

/-- `response[k] = v` makes a later read of `k` yield `v`. -/
theorem setHeader_lookup_self (hs : List (String × String)) (k v : String) :
    (setHeader hs k v).lookup k = some v := by
  rw [setHeader, lookup_append_cases, lookup_filter_self]
  simp [List.lookup]

/-- `response[k'] = v` leaves a read of a different key `k` unchanged. -/
theorem setHeader_lookup_other (hs : List (String × String)) (k k' v : String)
    (h : ¬ k = k') :
    (setHeader hs k' v).lookup k = hs.lookup k := by
  rw [setHeader, lookup_append_cases, lookup_filter_other hs k k' h]
  have hk : (k == k') = false := by simpa using h
  cases hl : hs.lookup k with
  | some w => rfl
  | none => simp [List.lookup, hk]

/- ### Claim theorems -/

/-- C1 (counterexample): the claim says `_load_manifest` returns the
empty mapping on content that is not a mapping; but a file whose
content is the valid JSON document `[1]` parses without an exception
and `_load_manifest` returns the decoded list unchanged, not the empty
mapping. -/
theorem load_manifest_nonmapping_counterexample :
    load_manifest (some (JValue.arr [JValue.num 1])) = JValue.arr [JValue.num 1]
    ∧ load_manifest (some (JValue.arr [JValue.num 1])) ≠ JValue.obj [] :=
  ⟨rfl, fun h => JValue.noConfusion h⟩

/-- C1 (amended): `_load_manifest` returns the empty mapping exactly
when reading or parsing raises (missing file or content that is not
valid JSON); when parsing succeeds it returns the decoded value
unchanged — even when that value is not a mapping — and it never raises
to its caller. -/
theorem load_manifest_amended :
    load_manifest none = JValue.obj [] ∧ ∀ v, load_manifest (some v) = v :=
  ⟨rfl, fun _ => rfl⟩

/-- C2: for every call to `render` on a schema-conforming loaded
manifest, exactly one of the two `RenderOutput` variants is produced
(no exception), the variant is the JSON payload precisely when the
`X-Requested-With: XMLHttpRequest` header marker is present, and two
calls differing only in the `options` mapping produce the same
variant. -/
theorem render_variant_solely_by_header (rd : Renderer) (env : Env) (req : Request)
    (c : String) (p : Option JValue) (o1 o2 : Option (List (String × JValue)))
    (h : conformsManifest rd.manifest = true) :
    ∃ r1 r2, render rd env req c p o1 = .ok r1 ∧ render rd env req c p o2 = .ok r2 ∧
      (r1.output.isJson = true
        ↔ headersGet req "X-Requested-With" = some "XMLHttpRequest") ∧
      r1.output.isJson = r2.output.isJson := by
  obtain ⟨s, hs⟩ := get_scripts_conform_ok _ h
  obtain ⟨t, ht⟩ := get_styles_conform_ok _ h
  by_cases hx : headersGet req "X-Requested-With" = some "XMLHttpRequest"
  · exact ⟨_, _, render_xhr_eq _ _ _ _ _ _ hx, render_xhr_eq _ _ _ _ _ _ hx,
      by simp [RenderOutput.isJson, hx], rfl⟩
  · exact ⟨_, _, render_nonxhr_eq _ _ _ _ _ _ hx s t hs ht,
      render_nonxhr_eq _ _ _ _ _ _ hx s t hs ht,
      by simp [RenderOutput.isJson, hx], rfl⟩

/-- C2 witness: a concrete full-page request, evaluated with no options
and with `options.ssr = false`. -/
theorem render_variant_solely_by_header_witness :
    conformsManifest (JValue.obj []) = true ∧
    ∃ r1 r2,
      render ⟨"http://localhost:13714", false, JValue.obj []⟩
          ⟨none, fun _ => "", none⟩ ⟨[], "/home"⟩ "Home" none none = .ok r1 ∧
      render ⟨"http://localhost:13714", false, JValue.obj []⟩
          ⟨none, fun _ => "", none⟩ ⟨[], "/home"⟩ "Home" none
          (some [("ssr", JValue.bool false)]) = .ok r2 ∧
      (r1.output.isJson = true
        ↔ headersGet ⟨[], "/home"⟩ "X-Requested-With" = some "XMLHttpRequest") ∧
      r1.output.isJson = r2.output.isJson :=
  ⟨rfl, render_variant_solely_by_header _ _ _ _ _ _ _ rfl⟩

/-- C3: an XHR-flagged request makes `render` return immediately the
`JsonPayload` with the given component, the (defaulted) props, the
request path and `_get_version`'s result; the SSR call count is zero
regardless of `ssr_enabled` and of the SSR endpoint's behaviour, and no
asset tags enter the output. -/
theorem render_xhr_json_payload (rd : Renderer) (env : Env) (req : Request)
    (c : String) (p : Option JValue) (o : Option (List (String × JValue)))
    (hx : headersGet req "X-Requested-With" = some "XMLHttpRequest") :
    render rd env req c p o
      = .ok ⟨.jsonPayload c (orEmptyDict p) req.path (get_version rd env), 0⟩ :=
  render_xhr_eq rd env req c p o hx

/-- C3 witness: a concrete XHR request against a renderer with SSR
enabled and an SSR endpoint that would answer. -/
theorem render_xhr_json_payload_witness :
    headersGet ⟨[("X-Requested-With", "XMLHttpRequest")], "/u"⟩ "X-Requested-With"
        = some "XMLHttpRequest" ∧
    render ⟨"http://localhost:13714", true, JValue.obj []⟩
        ⟨none, fun _ => "h", some (JValue.obj [])⟩
        ⟨[("X-Requested-With", "XMLHttpRequest")], "/u"⟩ "Home" none none
      = .ok ⟨.jsonPayload "Home" (JValue.obj []) "/u" "dev", 0⟩ :=
  ⟨rfl, render_xhr_json_payload _ _ _ _ _ _ rfl⟩

/-- C4 (counterexample): the claim says an SSR response body lacking
the `html` key counts as a whole-call failure leaving both `html` and
`head` empty; but on the body `\x7b"head": "<title>t</title>"\x7d` the
code keeps the present `head` value — only `html` is defaulted. -/
theorem render_ssr_missing_key_counterexample :
    (render ⟨"http://localhost:13714", true, JValue.obj []⟩
        ⟨none, fun _ => "", some (JValue.obj [("head", JValue.str "<title>t</title>")])⟩
        ⟨[], "/page"⟩ "App" none none).map
        (fun r => (r.output.ssrHtml, r.output.ssrHead, r.ssrCalls))
      = .ok (some (JValue.str ""), some (JValue.str "<title>t</title>"), 1)
    ∧ JValue.str "<title>t</title>" ≠ JValue.str "" :=
  ⟨rfl, fun h => absurd (JValue.str.inj h) (by decide)⟩

/-- C4 (amended): missing keys in the SSR endpoint's JSON-object
response do not fail the call; each of `html` and `head` is defaulted
to the empty string individually when its key is absent, and a present
key's value is still used (both end up empty only when both keys are
absent or the body is not a JSON object). -/
theorem render_ssr_per_key_default (rd : Renderer) (env : Env) (req : Request)
    (c : String) (p : Option JValue) (o : Option (List (String × JValue)))
    (dkvs : List (String × JValue))
    (hx : ¬ headersGet req "X-Requested-With" = some "XMLHttpRequest")
    (hm : conformsManifest rd.manifest = true)
    (hg : (rd.ssr_enabled && pyTruthy (dictGet (o.getD []) "ssr" (.bool true))) = true)
    (hresp : env.ssrResponse = some (JValue.obj dkvs)) :
    ∃ out, render rd env req c p o = .ok ⟨out, 1⟩ ∧
      out.ssrHtml = some (dictGet dkvs "html" (.str "")) ∧
      out.ssrHead = some (dictGet dkvs "head" (.str "")) := by
  obtain ⟨s, hs⟩ := get_scripts_conform_ok _ hm
  obtain ⟨t, ht⟩ := get_styles_conform_ok _ hm
  have hr := render_nonxhr_eq rd env req c p o hx s t hs ht
  rw [hresp, ssrOutcome_obj _ _ _ hg] at hr
  exact ⟨_, hr, rfl, rfl⟩

/-- C4 witness: concrete SSR body carrying only `head`. -/
theorem render_ssr_per_key_default_witness :
    (¬ headersGet ⟨[], "/p"⟩ "X-Requested-With" = some "XMLHttpRequest") ∧
    conformsManifest (JValue.obj []) = true ∧
    ((true && pyTruthy (dictGet ((none : Option (List (String × JValue))).getD [])
        "ssr" (.bool true))) = true) ∧
    ∃ out,
      render ⟨"http://localhost:13714", true, JValue.obj []⟩
          ⟨none, fun _ => "", some (JValue.obj [("head", JValue.str "x")])⟩
          ⟨[], "/p"⟩ "App" none none
        = .ok ⟨out, 1⟩ ∧
      out.ssrHtml = some (dictGet [("head", JValue.str "x")] "html" (.str "")) ∧
      out.ssrHead = some (dictGet [("head", JValue.str "x")] "head" (.str "")) :=
  ⟨(fun h => nomatch h), rfl, rfl,
    render_ssr_per_key_default _ _ _ _ _ _ _ (fun h => nomatch h) rfl rfl rfl⟩

/-- C5: on a full-page request with SSR enabled, when the SSR call
produces no JSON-object body (network error, timeout, non-JSON body —
all modelled by the response environment), `render` still returns an
`HtmlContext` — no exception — with empty `html` and `head`. -/
theorem render_ssr_failure_degrades (rd : Renderer) (env : Env) (req : Request)
    (c : String) (p : Option JValue) (o : Option (List (String × JValue)))
    (hx : ¬ headersGet req "X-Requested-With" = some "XMLHttpRequest")
    (hm : conformsManifest rd.manifest = true)
    (_hen : rd.ssr_enabled = true)
    (hfail : ∀ dkvs, env.ssrResponse ≠ some (JValue.obj dkvs)) :
    ∃ out n, render rd env req c p o = .ok ⟨out, n⟩ ∧
      out.ssrHtml = some (JValue.str "") ∧ out.ssrHead = some (JValue.str "") := by
  obtain ⟨s, hs⟩ := get_scripts_conform_ok _ hm
  obtain ⟨t, ht⟩ := get_styles_conform_ok _ hm
  have hr := render_nonxhr_eq rd env req c p o hx s t hs ht
  obtain ⟨h1, h2⟩ := ssrOutcome_failure rd.ssr_enabled (o.getD []) env.ssrResponse hfail
  refine ⟨_, _, hr, ?_, ?_⟩
  · simp only [RenderOutput.ssrHtml, h1]
  · simp only [RenderOutput.ssrHead, h2]

/-- C5 witness: SSR enabled, endpoint unreachable (no response). -/
theorem render_ssr_failure_degrades_witness :
    (¬ headersGet ⟨[], "/home"⟩ "X-Requested-With" = some "XMLHttpRequest") ∧
    conformsManifest (JValue.obj []) = true ∧
    ∃ out n,
      render ⟨"http://localhost:13714", true, JValue.obj []⟩
          ⟨none, fun _ => "", none⟩ ⟨[], "/home"⟩ "App" none none
        = .ok ⟨out, n⟩ ∧
      out.ssrHtml = some (JValue.str "") ∧ out.ssrHead = some (JValue.str "") :=
  ⟨(fun h => nomatch h), rfl,
    render_ssr_failure_degrades _ _ _ _ _ _ (fun h => nomatch h) rfl rfl
      (fun _ h => nomatch h)⟩

/-- C6: a full-page request whose options mapping carries `ssr = False`
makes zero SSR calls — even when `ssr_enabled` is true and the endpoint
would answer — and `html`/`head` stay empty. -/
theorem render_ssr_optout_no_call (rd : Renderer) (env : Env) (req : Request)
    (c : String) (p : Option JValue) (opts : List (String × JValue))
    (hx : ¬ headersGet req "X-Requested-With" = some "XMLHttpRequest")
    (hm : conformsManifest rd.manifest = true)
    (ho : opts.lookup "ssr" = some (JValue.bool false)) :
    ∃ out, render rd env req c p (some opts) = .ok ⟨out, 0⟩ ∧
      out.ssrHtml = some (JValue.str "") ∧ out.ssrHead = some (JValue.str "") := by
  obtain ⟨s, hs⟩ := get_scripts_conform_ok _ hm
  obtain ⟨t, ht⟩ := get_styles_conform_ok _ hm
  have hr := render_nonxhr_eq rd env req c p (some opts) hx s t hs ht
  rw [Option.getD_some, ssrOutcome_optout rd.ssr_enabled opts env.ssrResponse ho] at hr
  exact ⟨_, hr, rfl, rfl⟩

/-- C6 witness: `ssr_enabled = true`, an endpoint that would return
content, and `options = \x7b"ssr": False\x7d`: zero calls, empty
`html`/`head`. -/
theorem render_ssr_optout_no_call_witness :
    (¬ headersGet ⟨[], "/h"⟩ "X-Requested-With" = some "XMLHttpRequest") ∧
    conformsManifest (JValue.obj []) = true ∧
    ([("ssr", JValue.bool false)].lookup "ssr" = some (JValue.bool false)) ∧
    ∃ out,
      render ⟨"http://localhost:13714", true, JValue.obj []⟩
          ⟨none, fun _ => "", some (JValue.obj [("html", JValue.str "X")])⟩
          ⟨[], "/h"⟩ "App" none (some [("ssr", JValue.bool false)])
        = .ok ⟨out, 0⟩ ∧
      out.ssrHtml = some (JValue.str "") ∧ out.ssrHead = some (JValue.str "") :=
  ⟨(fun h => nomatch h), rfl, rfl,
    render_ssr_optout_no_call _ _ _ _ _ _ (fun h => nomatch h) rfl rfl⟩

/-- C7: on a schema-conforming manifest mapping, `_get_scripts` returns
exactly what the specification describes (`scripts_spec`): the single
fallback reference when the mapping is empty, otherwise one script line
per entry whose `isEntry` flag is true, in iteration order, each under
`/static/build/`, joined by newlines. -/
theorem get_scripts_matches_spec (kvs : List (String × JValue))
    (h : conformsManifest (JValue.obj kvs) = true) :
    get_scripts (JValue.obj kvs) = .ok (scripts_spec kvs) := by
  have hall : ∀ kv ∈ kvs, conformsRecord kv.snd = true := by
    simpa [conformsManifest, List.all_eq_true] using h
  cases kvs with
  | nil => rfl
  | cons kv rest =>
    have hloop := get_scripts_loop_conform (kv :: rest) hall
    have hpt : pyTruthy (JValue.obj (kv :: rest)) = true := by rfl
    rw [get_scripts, if_pos hpt, hloop]
    simp only [scripts_spec, List.isEmpty_cons, Bool.false_eq_true, if_false]
    rfl

/-- C7 witness: the specification's own example manifest. -/
theorem get_scripts_matches_spec_witness :
    conformsManifest (JValue.obj [("main.ts", JValue.obj
        [("file", JValue.str "main.abc123.js"), ("isEntry", JValue.bool true),
         ("css", JValue.arr [JValue.str "main.xyz.css"])])]) = true ∧
    get_scripts (JValue.obj [("main.ts", JValue.obj
        [("file", JValue.str "main.abc123.js"), ("isEntry", JValue.bool true),
         ("css", JValue.arr [JValue.str "main.xyz.css"])])])
      = .ok (scripts_spec [("main.ts", JValue.obj
        [("file", JValue.str "main.abc123.js"), ("isEntry", JValue.bool true),
         ("css", JValue.arr [JValue.str "main.xyz.css"])])]) :=
  ⟨rfl, get_scripts_matches_spec _ rfl⟩

/-- C8 (counterexample): the claim says the CSRF header is attached
exactly when the inbound request carries the `X-Nadi` marker header;
but a request carrying the marker with an empty value gets no CSRF
header, because the code tests the header value's truthiness. -/
theorem middleware_empty_marker_counterexample :
    ((⟨[("X-Nadi", "")], "/"⟩ : Request).headers.lookup "X-Nadi").isSome = true ∧
    (middleware_call [] "token" ⟨[("X-Nadi", "")], "/"⟩).lookup "X-CSRF-Token" = none :=
  ⟨rfl, rfl⟩

/-- C8 (amended): every response leaving `NadiMiddleware` carries
`X-Nadi-Version: 0.2.0`, and (when the wrapped view did not itself set
one) it carries `X-CSRF-Token` exactly when the inbound `X-Nadi`
marker header is present with a non-empty value. -/
theorem middleware_version_and_csrf (inner : List (String × String)) (tok : String)
    (req : Request) (h : inner.lookup "X-CSRF-Token" = none) :
    (middleware_call inner tok req).lookup "X-Nadi-Version" = some "0.2.0" ∧
    (middleware_call inner tok req).lookup "X-CSRF-Token"
      = (if optStrTruthy (headersGet req "X-Nadi") then some tok else none) := by
  rw [middleware_call]
  cases hm : optStrTruthy (headersGet req "X-Nadi") with
  | true =>
    simp only [hm, if_true]
    constructor
    · rw [setHeader_lookup_other _ _ _ _ (by decide)]
      exact setHeader_lookup_self inner "X-Nadi-Version" "0.2.0"
    · exact setHeader_lookup_self _ _ _
  | false =>
    simp only [hm, Bool.false_eq_true, if_false]
    constructor
    · exact setHeader_lookup_self inner "X-Nadi-Version" "0.2.0"
    · rw [setHeader_lookup_other _ _ _ _ (by decide)]
      exact h

/-- C8 witness: a request carrying `X-Nadi: 1` through the middleware
over a view that set no headers. -/
theorem middleware_version_and_csrf_witness :
    (([] : List (String × String)).lookup "X-CSRF-Token" = none) ∧
    ((middleware_call [] "tok" ⟨[("X-Nadi", "1")], "/"⟩).lookup "X-Nadi-Version"
        = some "0.2.0" ∧
     (middleware_call [] "tok" ⟨[("X-Nadi", "1")], "/"⟩).lookup "X-CSRF-Token"
        = (if optStrTruthy (headersGet ⟨[("X-Nadi", "1")], "/"⟩ "X-Nadi")
            then some "tok" else none)) :=
  ⟨rfl, middleware_version_and_csrf [] "tok" ⟨[("X-Nadi", "1")], "/"⟩ rfl⟩

/-- C9: on any loaded manifest conforming to the documented schema,
`_get_scripts` and `_get_styles` are total — they raise nothing and
return a string. -/
theorem asset_builders_total (m : JValue) (h : conformsManifest m = true) :
    (∃ s, get_scripts m = .ok s) ∧ (∃ s, get_styles m = .ok s) :=
  ⟨get_scripts_conform_ok m h, get_styles_conform_ok m h⟩

/-- C9 witness: a conforming two-entry manifest exercising `isEntry`
and `css`. -/
theorem asset_builders_total_witness :
    conformsManifest (JValue.obj
      [("a.ts", JValue.obj [("file", JValue.str "a.js"), ("isEntry", JValue.bool true)]),
       ("b.ts", JValue.obj [("file", JValue.str "b.js"),
          ("css", JValue.arr [JValue.str "b.css"])])]) = true ∧
    ((∃ s, get_scripts (JValue.obj
      [("a.ts", JValue.obj [("file", JValue.str "a.js"), ("isEntry", JValue.bool true)]),
       ("b.ts", JValue.obj [("file", JValue.str "b.js"),
          ("css", JValue.arr [JValue.str "b.css"])])]) = .ok s) ∧
     (∃ s, get_styles (JValue.obj
      [("a.ts", JValue.obj [("file", JValue.str "a.js"), ("isEntry", JValue.bool true)]),
       ("b.ts", JValue.obj [("file", JValue.str "b.js"),
          ("css", JValue.arr [JValue.str "b.css"])])]) = .ok s)) :=
  ⟨rfl, asset_builders_total _ rfl⟩

/-- C10: `_get_version` reads the manifest file at call time and
ignores the manifest mapping loaded at construction: two renderer
states over environments with identical file bytes and the same digest
function yield the same version string, whatever their loaded
manifests. -/
theorem get_version_ignores_loaded_manifest (rd1 rd2 : Renderer) (e1 e2 : Env)
    (hb : e1.manifestBytes = e2.manifestBytes) (hh : e1.md5hex = e2.md5hex) :
    get_version rd1 e1 = get_version rd2 e2 := by
  simp only [get_version, hb, hh]

/-- C10 witness: two renderers with different loaded manifests over the
same file bytes agree on the version. -/
theorem get_version_ignores_loaded_manifest_witness :
    ((⟨some [1, 2, 3], fun _ => "d41d8", none⟩ : Env).manifestBytes
        = (⟨some [1, 2, 3], fun _ => "d41d8", none⟩ : Env).manifestBytes) ∧
    get_version ⟨"u", false, JValue.obj []⟩ ⟨some [1, 2, 3], fun _ => "d41d8", none⟩
      = get_version ⟨"u", true, JValue.arr [JValue.num 1]⟩
          ⟨some [1, 2, 3], fun _ => "d41d8", none⟩ :=
  ⟨rfl, get_version_ignores_loaded_manifest _ _ _ _ rfl rfl⟩

end Nadi
